import Mathlib

/-!
Verification development for the `cdimage` crate: a shallow embedding of
its CD-image addressing types (`Bcd`, `Msf`), its error taxonomy
(`CdError` with its `Display` implementation), and the `Image` backend
contract (`read_sector`, `track_msf`).

The crate root `src/lib.rs` declares the `bcd`, `msf`, `sector` and `cue`
modules but their files are not part of the visible source; those
definitions are modelled from the specification and are marked as such in
their doc comments.  Everything about `CdError` and the `Image` trait
signatures is embedded directly from `src/lib.rs`.
-/

/-- Embedded from `src/lib.rs`: the `CdError` enum.  `io::Error` (the
payload of `IoError`) is opaque to this crate and is modelled by its debug
rendering; `PathBuf` is modelled by the string the path displays as; the
`u32` line number is modelled by a `Nat`. -/
inductive CdError where
  | IoError (err : String)
  | BadFormat
  | LeadOut
  | ParseError (path : String) (line : Nat) (err : String)
  | BadImage (path : String) (err : String)
  | BadTrack
  | EndOfTrack
deriving DecidableEq

/-- Model of the derived `Debug` rendering of `CdError` (Rust
`#[derive(Debug)]`): the variant name, followed by the parenthesised,
comma-separated debug forms of the fields.  `PathBuf` and `String` fields
debug-print surrounded by double quotes (we consider escape-free
strings); the `io::Error` payload prints as its own debug rendering,
which is how that field is modelled. -/
def CdError.debugFmt : CdError → String
  | .IoError e => "IoError(" ++ e ++ ")"
  | .BadFormat => "BadFormat"
  | .LeadOut => "LeadOut"
  | .ParseError p l e =>
      "ParseError(\"" ++ p ++ "\", " ++ toString l ++ ", \"" ++ e ++ "\")"
  | .BadImage p e => "BadImage(\"" ++ p ++ "\", \"" ++ e ++ "\")"
  | .BadTrack => "BadTrack"
  | .EndOfTrack => "EndOfTrack"

/-- Embedded from `impl fmt::Display for CdError` in `src/lib.rs`:
`ParseError(path, line, err)` renders as `path.display()`, a colon, the
line, a colon and a space, then the message; every other variant falls to
the catch-all arm which writes the debug form. -/
def CdError.display : CdError → String
  | .ParseError p l e => p ++ ":" ++ toString l ++ ": " ++ e
  | e => e.debugFmt

/-- Modelled from the spec: the `Bcd` type of `src/bcd.rs` (file not in
the visible source), a binary-coded-decimal byte storing one decimal
digit per 4-bit nibble. -/
structure Bcd where
  bcd : Nat
deriving DecidableEq

/-- Modelled from the spec: `Bcd::to_binary` decodes the BCD byte back to
its decimal value 0-99. -/
def Bcd.to_binary (b : Bcd) : Nat :=
  (b.bcd / 16) * 10 + b.bcd % 16

/-- Modelled from the spec: `Bcd::from_binary` encodes a decimal value
0-99 directly into BCD; it is total on that range. -/
def Bcd.from_binary (v : Nat) : Bcd :=
  ⟨(v / 10) * 16 + v % 10⟩

/-- Modelled from the spec: `Bcd::from_bcd` accepts a raw byte only when
both its nibbles are at most 9, and rejects it otherwise. -/
def Bcd.from_bcd (b : Nat) : Option Bcd :=
  if b / 16 ≤ 9 ∧ b % 16 ≤ 9 then some ⟨b⟩ else none

/-- Modelled from the spec: the `Msf` timecode of `src/msf.rs` (file not
in the visible source): a disc position (minute, second, frame), each
component a decimal value. -/
structure Msf where
  m : Nat
  s : Nat
  f : Nat
deriving DecidableEq

/-- Validity of an `Msf`: minute 0-99, second 0-59, frame 0-74, i.e. the
value lies in [00:00:00, 99:59:74]. -/
def Msf.valid (x : Msf) : Bool :=
  x.m ≤ 99 && x.s ≤ 59 && x.f ≤ 74

/-- Modelled from the spec: `Msf::to_lba`, the exact and total conversion
to a linear sector index: 75 frames per second, 60 seconds per minute. -/
def Msf.to_lba (x : Msf) : Int :=
  (x.m * 60 * 75 + x.s * 75 + x.f : Nat)

/-- The same linear index as a natural number (every valid `Msf` is at or
after 00:00:00, so the index is non-negative). -/
def Msf.to_lbaNat (x : Msf) : Nat :=
  x.m * 60 * 75 + x.s * 75 + x.f

/-- Decomposition of a linear sector index into an `Msf` timecode. -/
def msfOfLba (n : Nat) : Msf :=
  ⟨n / 4500, n % 4500 / 75, n % 75⟩

/-- One past the largest linear index representable on a disc:
`Msf(99,59,74).to_lba = 449999`. -/
def discEnd : Nat := 450000

/-- Modelled from the spec: `Msf::from_lba` converts a zero-based linear
sector index into a timecode; indices outside the representable disc
range fail. -/
def Msf.from_lba (i : Int) : Except CdError Msf :=
  if 0 ≤ i ∧ i < (discEnd : Int) then .ok (msfOfLba i.toNat)
  else .error CdError.LeadOut

/-- Modelled from the spec: `Msf::checked_add` adds a frame count,
failing with `CdError::LeadOut` when the result would exceed the maximum
disc address. -/
def Msf.checked_add (x : Msf) (frames : Nat) : Except CdError Msf :=
  if x.to_lbaNat + frames < discEnd then .ok (msfOfLba (x.to_lbaNat + frames))
  else .error CdError.LeadOut

/-- Modelled from the spec: `Msf::checked_sub` subtracts a frame count,
failing with `CdError::LeadOut` when the result would fall below the
start of the disc (00:00:00). -/
def Msf.checked_sub (x : Msf) (frames : Nat) : Except CdError Msf :=
  if frames ≤ x.to_lbaNat then .ok (msfOfLba (x.to_lbaNat - frames))
  else .error CdError.LeadOut

/-- Modelled from the spec: the ordering on `Msf` compares components
lexicographically, each component by its decoded decimal value. -/
def Msf.lt (a b : Msf) : Bool :=
  a.m < b.m || (a.m == b.m && (a.s < b.s || (a.s == b.s && a.f < b.f)))

/-- Modelled from the spec: the `Sector` buffer of `src/sector.rs` (file
not in the visible source), a flat byte buffer filled by
`Image::read_sector`. -/
structure Sector where
  data : List Nat
deriving DecidableEq

/-- Modelled from the spec: one entry of the cue-derived track layout an
`Image` backend consults: a track number, the absolute linear index of
the track start, and the track length in sectors. -/
structure Track where
  number : Nat
  start : Nat
  length : Nat
deriving DecidableEq

/-- Modelled from the spec: `Image::track_msf` (the trait method is
declared in `src/lib.rs`, every implementation lives outside the visible
source): resolve a track-relative position to an absolute `Msf`, failing
with `CdError::BadTrack` when no track carries the requested number and
with `CdError::EndOfTrack` when the position exceeds the track's
length. -/
def track_msf (tracks : List Track) (track : Nat) (pos : Msf) : Except CdError Msf :=
  match tracks.find? (fun t => t.number == track) with
  | none => .error CdError.BadTrack
  | some t =>
      if pos.to_lbaNat > t.length then .error CdError.EndOfTrack
      else .ok (msfOfLba (t.start + pos.to_lbaNat))

/-- Modelled from the spec: the state a generic `Image` backend exposes
to `read_sector`: the linear index of the disc lead-out, the sector
contents at each linear index, and the arbitrary bytes a failed read
leaves in the caller's buffer (failure leaves the buffer unspecified, so
the model lets it be anything). -/
structure ImageModel where
  leadOut : Nat
  contents : Nat → List Nat
  junk : List Nat

/-- Modelled from the spec: `Image::read_sector` (the trait method is
declared in `src/lib.rs`, every implementation lives outside the visible
source): fill the caller's buffer with the raw sector at an absolute
address, failing with `CdError::LeadOut` at or past the lead-out, in
which case the buffer contents are unspecified. -/
def read_sector (img : ImageModel) (at_ : Msf) : Sector × Except CdError Unit :=
  if img.leadOut ≤ at_.to_lbaNat then (⟨img.junk⟩, .error CdError.LeadOut)
  else (⟨img.contents at_.to_lbaNat⟩, .ok ())

/-- Kinds of borrow a Rust method takes on its receiver. -/
inductive Borrow where
  | shared
  | mutable
deriving DecidableEq

/-- Embedded from `src/lib.rs`: `Image::read_sector` is declared
`fn read_sector(&mut self, &mut Sector, Msf)`, so its receiver borrow is
mutable (exclusive). -/
def Image.read_sector_receiver : Borrow := .mutable

/-- Embedded from `src/lib.rs`: `Image::track_msf` is declared
`fn track_msf(&self, track: Bcd, track_msf: Msf)`, so its receiver
borrow is shared. -/
def Image.track_msf_receiver : Borrow := .shared

/-- C3: for every decimal value v in [0,99], `Bcd::from_binary(v)` succeeds
(it is a total function whose result is a well-formed BCD byte, accepted by
`from_bcd`) and `Bcd::from_binary(v).to_binary() == v`. -/
theorem bcd_from_binary_total_roundtrip (v : Nat) (h : v ≤ 99) :
    (Bcd.from_binary v).to_binary = v ∧
    Bcd.from_bcd (Bcd.from_binary v).bcd = some (Bcd.from_binary v) := by
  constructor
  · simp only [Bcd.from_binary, Bcd.to_binary]
    omega
  · simp only [Bcd.from_binary, Bcd.from_bcd]
    split
    · rfl
    · omega

/-- Witness for C3 at the concrete value 59. -/
theorem bcd_from_binary_total_roundtrip_witness :
    (Bcd.from_binary 59).to_binary = 59 ∧
    Bcd.from_bcd (Bcd.from_binary 59).bcd = some (Bcd.from_binary 59) :=
  bcd_from_binary_total_roundtrip 59 (by decide)

/-- C4: for every raw byte b, `Bcd::from_bcd(b)` fails exactly when the
high or the low nibble of b exceeds 9, and otherwise succeeds with the
value decoding to the decimal number spelled by the two nibbles (never a
truncation of an invalid byte). -/
theorem bcd_from_bcd_validates (b : Nat) (hb : b < 256) :
    ((9 < b / 16 ∨ 9 < b % 16) → Bcd.from_bcd b = none) ∧
    (b / 16 ≤ 9 → b % 16 ≤ 9 →
      Bcd.from_bcd b = some ⟨b⟩ ∧ Bcd.to_binary ⟨b⟩ = (b / 16) * 10 + b % 16) := by
  refine ⟨fun h => ?_, fun h1 h2 => ⟨?_, rfl⟩⟩
  · simp only [Bcd.from_bcd]
    split
    · omega
    · rfl
  · simp only [Bcd.from_bcd]
    rw [if_pos ⟨h1, h2⟩]

/-- Witness for C4: byte 0x1A (= 26) is rejected; byte 0x59 (= 89) is
accepted and decodes to 59. -/
theorem bcd_from_bcd_validates_witness :
    Bcd.from_bcd 26 = none ∧
    (Bcd.from_bcd 89 = some ⟨89⟩ ∧ Bcd.to_binary ⟨89⟩ = 59) :=
  ⟨(bcd_from_bcd_validates 26 (by decide)).1 (by decide),
   ((bcd_from_bcd_validates 89 (by decide)).2 (by decide) (by decide)).1,
   by decide⟩

/-- C1: for every non-negative linear sector index representable on a
disc, `Msf::from_lba` succeeds, its result is a valid timecode and
`to_lba` maps it back to the index; `from_lba(0)` is 00:00:00; and on
every valid `Msf`, `to_lba` is exact: `from_lba` inverts it. -/
theorem msf_from_lba_roundtrip :
    (∀ i : Int, 0 ≤ i → i < 450000 →
      ∃ x : Msf, Msf.from_lba i = .ok x ∧ x.valid = true ∧ x.to_lba = i) ∧
    Msf.from_lba 0 = .ok ⟨0, 0, 0⟩ ∧
    (∀ x : Msf, x.valid = true → Msf.from_lba x.to_lba = .ok x) := by
  refine ⟨fun i h0 hlt => ?_, rfl, fun x hx => ?_⟩
  · refine ⟨msfOfLba i.toNat, ?_, ?_, ?_⟩
    · simp only [Msf.from_lba, discEnd]
      rw [if_pos ⟨h0, by omega⟩]
    · simp only [msfOfLba, Msf.valid, Bool.and_eq_true, decide_eq_true_eq]
      omega
    · simp only [msfOfLba, Msf.to_lba]
      omega
  · cases x with
    | mk m s f =>
      simp only [Msf.valid, Bool.and_eq_true, decide_eq_true_eq] at hx
      simp only [Msf.from_lba, Msf.to_lba, discEnd]
      rw [if_pos (by constructor <;> omega)]
      simp only [msfOfLba, Int.toNat_natCast, Except.ok.injEq, Msf.mk.injEq]
      omega

/-- Witness for C1: `from_lba` inverts `to_lba` at the concrete valid
timecode 12:34:56. -/
theorem msf_from_lba_roundtrip_witness :
    Msf.from_lba (Msf.to_lba ⟨12, 34, 56⟩) = .ok ⟨12, 34, 56⟩ :=
  msf_from_lba_roundtrip.2.2 ⟨12, 34, 56⟩ (by decide)

/-- C2: for every valid `Msf` and frame count, `checked_add` returns a
new in-range `Msf` exactly when the result stays within the disc address
range and fails with `CdError::LeadOut` when it would exceed the maximum
disc address; `checked_sub` likewise fails when the result would fall
below 00:00:00; in particular `Msf(99,59,74).checked_add(1)` fails with
`LeadOut` and `Msf(00,00,00).checked_sub(1)` fails. -/
theorem msf_checked_add_sub_bounds :
    (∀ (x : Msf) (n : Nat), x.valid = true →
      (x.to_lbaNat + n < discEnd →
        x.checked_add n = .ok (msfOfLba (x.to_lbaNat + n)) ∧
          (msfOfLba (x.to_lbaNat + n)).valid = true ∧
          (msfOfLba (x.to_lbaNat + n)).to_lbaNat = x.to_lbaNat + n) ∧
      (discEnd ≤ x.to_lbaNat + n → x.checked_add n = .error CdError.LeadOut) ∧
      (n ≤ x.to_lbaNat →
        x.checked_sub n = .ok (msfOfLba (x.to_lbaNat - n)) ∧
          (msfOfLba (x.to_lbaNat - n)).valid = true ∧
          (msfOfLba (x.to_lbaNat - n)).to_lbaNat = x.to_lbaNat - n) ∧
      (x.to_lbaNat < n → x.checked_sub n = .error CdError.LeadOut)) ∧
    Msf.checked_add ⟨99, 59, 74⟩ 1 = .error CdError.LeadOut ∧
    Msf.checked_sub ⟨0, 0, 0⟩ 1 = .error CdError.LeadOut := by
  refine ⟨fun x n hv => ⟨fun hin => ⟨?_, ?_, ?_⟩, fun hout => ?_,
    fun hin => ⟨?_, ?_, ?_⟩, fun hout => ?_⟩, rfl, rfl⟩
  · simp only [Msf.checked_add]
    rw [if_pos hin]
  · simp only [msfOfLba, Msf.valid, Msf.to_lbaNat, Bool.and_eq_true,
      decide_eq_true_eq, discEnd] at *
    omega
  · simp only [msfOfLba, Msf.to_lbaNat, discEnd] at *
    omega
  · simp only [Msf.checked_add]
    rw [if_neg (by omega)]
  · simp only [Msf.checked_sub]
    rw [if_pos hin]
  · simp only [msfOfLba, Msf.valid, Msf.to_lbaNat, Bool.and_eq_true,
      decide_eq_true_eq, discEnd] at *
    omega
  · simp only [msfOfLba, Msf.to_lbaNat, discEnd] at *
    omega
  · simp only [Msf.checked_sub]
    rw [if_neg (by omega)]

/-- Witness for C2: adding 100 frames at 99:59:00 runs past the lead-out. -/
theorem msf_checked_add_sub_bounds_witness :
    Msf.checked_add ⟨99, 59, 0⟩ 100 = .error CdError.LeadOut :=
  ((msf_checked_add_sub_bounds.1 ⟨99, 59, 0⟩ 100 (by decide)).2.1 (by decide))

/-- C6: on valid timecodes the `Msf` ordering is a total order agreeing
with linear sector order: `a < b` exactly when `a.to_lba < b.to_lba`,
and any two valid timecodes are comparable. -/
theorem msf_lt_total_matches_lba (a b : Msf) (ha : a.valid = true) (hb : b.valid = true) :
    (Msf.lt a b = true ↔ a.to_lba < b.to_lba) ∧
    (Msf.lt a b = true ∨ a = b ∨ Msf.lt b a = true) := by
  cases a with
  | mk am as af =>
    cases b with
    | mk bm bs bf =>
      simp only [Msf.valid, Bool.and_eq_true, decide_eq_true_eq] at ha hb
      simp only [Msf.lt, Msf.to_lba, Msf.mk.injEq, Bool.or_eq_true, Bool.and_eq_true,
        decide_eq_true_eq, beq_iff_eq]
      constructor
      · omega
      · omega

/-- Witness for C6 at the concrete pair 00:00:01 and 00:00:02. -/
theorem msf_lt_total_matches_lba_witness :
    (Msf.lt ⟨0, 0, 1⟩ ⟨0, 0, 2⟩ = true ↔
      Msf.to_lba ⟨0, 0, 1⟩ < Msf.to_lba ⟨0, 0, 2⟩) ∧
    (Msf.lt ⟨0, 0, 1⟩ ⟨0, 0, 2⟩ = true ∨ (⟨0, 0, 1⟩ : Msf) = ⟨0, 0, 2⟩ ∨
      Msf.lt ⟨0, 0, 2⟩ ⟨0, 0, 1⟩ = true) :=
  msf_lt_total_matches_lba ⟨0, 0, 1⟩ ⟨0, 0, 2⟩ (by decide) (by decide)

/-- C7: `track_msf` fails with `CdError::BadTrack` when no track on the
image carries the requested number, fails with `CdError::EndOfTrack` when
the track exists but the track-relative position exceeds the track's
length, and otherwise returns the absolute timecode of that position
inside the track. -/
theorem track_msf_contract (tracks : List Track) (tn : Nat) (pos : Msf) :
    ((∀ t ∈ tracks, t.number ≠ tn) →
      track_msf tracks tn pos = .error CdError.BadTrack) ∧
    (∀ t, tracks.find? (fun t => t.number == tn) = some t →
      (t.length < pos.to_lbaNat →
        track_msf tracks tn pos = .error CdError.EndOfTrack) ∧
      (pos.to_lbaNat ≤ t.length →
        track_msf tracks tn pos = .ok (msfOfLba (t.start + pos.to_lbaNat)))) := by
  constructor
  · intro h
    have hn : tracks.find? (fun t => t.number == tn) = none := by
      rw [List.find?_eq_none]
      intro t ht
      simpa using h t ht
    simp [track_msf, hn]
  · intro t hf
    constructor
    · intro hl
      simp only [track_msf, hf]
      rw [if_pos hl]
    · intro hl
      simp only [track_msf, hf]
      rw [if_neg (by omega)]

/-- Witness for C7 on the one-track layout [track 1 at 150, length 1000]:
track 2 is absent, and position 00:20:00 (linear offset 1500) is past the
end of track 1. -/
theorem track_msf_contract_witness :
    track_msf [⟨1, 150, 1000⟩] 2 ⟨0, 0, 0⟩ = .error CdError.BadTrack ∧
    track_msf [⟨1, 150, 1000⟩] 1 ⟨0, 20, 0⟩ = .error CdError.EndOfTrack :=
  ⟨(track_msf_contract [⟨1, 150, 1000⟩] 2 ⟨0, 0, 0⟩).1 (by decide),
   ((track_msf_contract [⟨1, 150, 1000⟩] 1 ⟨0, 20, 0⟩).2 ⟨1, 150, 1000⟩
      (by rfl)).1 (by decide)⟩

/-- C8: for every backend state and every absolute address at or past the
disc's lead-out, `read_sector` fails with `CdError::LeadOut`; and the
buffer handed back on such a failure carries no guarantee: for every
possible byte list there is a conforming backend (same lead-out, same
sector contents) whose failing call leaves exactly those bytes in the
buffer. -/
theorem read_sector_leadout (img : ImageModel) (at_ : Msf)
    (h : img.leadOut ≤ at_.to_lbaNat) :
    (read_sector img at_).2 = .error CdError.LeadOut ∧
    ∀ j : List Nat, (read_sector ⟨img.leadOut, img.contents, j⟩ at_).1 = ⟨j⟩ := by
  constructor
  · simp only [read_sector]
    rw [if_pos h]
  · intro j
    simp only [read_sector]
    rw [if_pos h]

/-- Witness for C8: a disc whose lead-out is at linear index 100, read at
00:02:00 (linear index 150). -/
theorem read_sector_leadout_witness :
    (read_sector ⟨100, fun _ => [], []⟩ ⟨0, 2, 0⟩).2 = .error CdError.LeadOut :=
  (read_sector_leadout ⟨100, fun _ => [], []⟩ ⟨0, 2, 0⟩ (by decide)).1

/-- C9 counterexample: it is not the case that both `read_sector` and
`track_msf` take a mutable (exclusive) receiver borrow: `track_msf` is
declared with `&self` in `src/lib.rs`. -/
theorem image_receivers_not_both_mutable :
    ¬(Image.read_sector_receiver = Borrow.mutable ∧
      Image.track_msf_receiver = Borrow.mutable) := by
  decide

/-- C9 amended: `read_sector` takes exclusive mutable access to the
backend (`&mut self`) and so may mutate internal state, while `track_msf`
takes only shared access (`&self`). -/
theorem image_receiver_borrows :
    Image.read_sector_receiver = Borrow.mutable ∧
    Image.track_msf_receiver = Borrow.shared := by
  decide

/-- C5: `CdError::ParseError(p, n, s)` displays as the path, a colon, the
line number, a colon and a space, then the message; every other variant
displays as its debug form. -/
theorem cderror_display_format :
    (∀ (p : String) (n : Nat) (s : String),
      CdError.display (.ParseError p n s) = p ++ ":" ++ toString n ++ ": " ++ s) ∧
    (∀ e : CdError, (∀ p n s, e ≠ CdError.ParseError p n s) →
      CdError.display e = CdError.debugFmt e) := by
  refine ⟨fun p n s => rfl, fun e h => ?_⟩
  cases e
  case ParseError p l s => exact absurd rfl (h p l s)
  all_goals rfl

/-- Witness for C5: `ParseError(path, 42, bad token)` renders as
`path:42: bad token`, and a non-ParseError variant renders as its debug
form. -/
theorem cderror_display_format_witness :
    CdError.display (.ParseError "path" 42 "bad token") = "path:42: bad token" ∧
    CdError.display CdError.BadTrack = CdError.debugFmt CdError.BadTrack :=
  ⟨(cderror_display_format.1 "path" 42 "bad token").trans rfl,
   cderror_display_format.2 CdError.BadTrack
     (fun p n s h => CdError.noConfusion h)⟩

/-- C10: `Display` formatting of `CdError` is total: every variant is
covered by the match (ParseError by its own arm, every other variant by
the catch-all debug arm), and rendering always produces a non-empty
string. -/
theorem cderror_display_total (e : CdError) :
    ((∃ p n s, e = CdError.ParseError p n s) ∨
      CdError.display e = CdError.debugFmt e) ∧
    CdError.display e ≠ "" := by
  have hemp : ("" : String).length = 0 := rfl
  have hcolon : (":" : String).length = 1 := rfl
  have hcs : (": " : String).length = 2 := rfl
  have hio : ("IoError(" : String).length = 8 := rfl
  have hcp : (")" : String).length = 1 := rfl
  cases e with
  | ParseError p l s =>
      refine ⟨Or.inl ⟨p, l, s, rfl⟩, fun hc => ?_⟩
      have hl := congrArg String.length hc
      simp only [CdError.display, String.length_append, hcolon, hcs, hemp] at hl
      omega
  | IoError err =>
      refine ⟨Or.inr rfl, fun hc => ?_⟩
      have hl := congrArg String.length hc
      simp only [CdError.display, CdError.debugFmt, String.length_append,
        hio, hcp, hemp] at hl
      omega
  | BadImage p err =>
      refine ⟨Or.inr rfl, fun hc => ?_⟩
      have hl := congrArg String.length hc
      have hbi : ("BadImage(\"" : String).length = 10 := rfl
      have hmid : ("\", \"" : String).length = 4 := rfl
      have hend : ("\")" : String).length = 2 := rfl
      simp only [CdError.display, CdError.debugFmt, String.length_append,
        hbi, hmid, hend, hemp] at hl
      omega
  | BadFormat => exact ⟨Or.inr rfl, by decide⟩
  | LeadOut => exact ⟨Or.inr rfl, by decide⟩
  | BadTrack => exact ⟨Or.inr rfl, by decide⟩
  | EndOfTrack => exact ⟨Or.inr rfl, by decide⟩
